import Mathlib

/-!
Verification development for the FundAdvisor multi-strategy signal engine
(`backend/app/strategies/`). The Python code is shallowly embedded over `ℚ`:
pandas/numpy float arithmetic becomes exact rational arithmetic, DataFrames
become lists of rows with column-presence flags, and a missing cell (NaN) is
an `Option` that is `none`. Where the source takes a genuine square root
(`pandas.Series.std`), the embedding is parametrised by an arbitrary
function `sqrtQ : ℚ → ℚ`; no claim depends on its value. The special IEEE
division cases exercised by `calculate_rsi` (positive/0 = ∞ giving RSI 100,
0/0 = NaN) are modelled explicitly by the `RsiVal` type.
-/

/-- The `SignalType` enumeration from `base_strategy.py` (BUY / SELL / HOLD). -/
inductive SignalType where
  | BUY
  | SELL
  | HOLD
deriving DecidableEq, Repr

/-- The `StrategySignal` class from `base_strategy.py`. The `indicators` dict and the
`timestamp` field are not modelled (no claim mentions them). -/
structure Signal where
  signal_type : SignalType
  strength : ℚ
  reason : String
deriving DecidableEq, Repr

/-- Embedding of `StrategySignal.__init__`: the constructor clamps `strength` to `[0, 1]`
via `max(0.0, min(1.0, strength))`. -/
def mkSignal (t : SignalType) (s : ℚ) (r : String) : Signal :=
  { signal_type := t, strength := max 0 (min 1 s), reason := r }

/-- One row of the NAV DataFrame: `date`, `net_value`, and the optional
`volume` / `daily_return` cells (`none` models a NaN cell). -/
structure NavRow where
  date : ℕ
  net_value : ℚ
  volume : Option ℚ
  daily_return : Option ℚ
deriving DecidableEq, Repr

/-- The NAV DataFrame handed to a strategy: its rows plus column-presence
flags for the columns the strategies test with `col in data.columns`. -/
structure NavData where
  has_date : Bool
  has_net_value : Bool
  has_volume : Bool
  has_daily_return : Bool
  rows : List NavRow
deriving DecidableEq, Repr

/-- Embedding of `BaseStrategy.validate_data`: reject an empty frame, a frame missing the
`date` or `net_value` column, or one with fewer than `min_data_points` rows. -/
def validate_data (min_data_points : ℕ) (d : NavData) : Bool :=
  if d.rows.isEmpty then false
  else if !d.has_date then false
  else if !d.has_net_value then false
  else decide (min_data_points ≤ d.rows.length)

/-- Stable insertion of a row into a list sorted by ascending `date`. -/
def insertRowByDate (r : NavRow) : List NavRow → List NavRow
  | [] => [r]
  | x :: xs => if r.date ≤ x.date then r :: x :: xs else x :: insertRowByDate r xs

/-- Embedding of the date sort `data.sort_values` applied by the strategies: stable ascending sort. -/
def sort_by_date : List NavRow → List NavRow
  | [] => []
  | x :: xs => insertRowByDate x (sort_by_date xs)

/-- Arithmetic mean of a list of rationals (`0` on the empty list; every use
site feeds it a non-empty window). -/
def meanQ (l : List ℚ) : ℚ := l.sum / (l.length : ℚ)

/-- The last `k` elements of a list (`Series.tail(k)`). -/
def lastN (k : ℕ) (l : List α) : List α := l.drop (l.length - k)

/-- The trailing window of width `period` ending at index `i`
(`Series.rolling(window=period)` at position `i`). -/
def windowAt (period i : ℕ) (l : List ℚ) : List ℚ := lastN period (l.take (i + 1))

/-- Embedding of `BaseStrategy.calculate_moving_average`: rolling mean with
`min_periods=1`, i.e. a partial window before `period` points exist. -/
def calculate_moving_average (l : List ℚ) (period : ℕ) : List ℚ :=
  (List.range l.length).map (fun i => meanQ (windowAt period i l))

/-- Sample variance with `ddof=1` (the radicand of `pandas.Series.std`);
`0` when fewer than two points exist (pandas would give NaN there, but every
use site is guarded by a minimum length). -/
def sampleVar (l : List ℚ) : ℚ :=
  if l.length ≤ 1 then 0
  else (l.map (fun x => (x - meanQ l) ^ 2)).sum / ((l.length : ℚ) - 1)

/-- Consecutive differences `Series.diff()` (without the leading NaN). -/
def diffsQ : List ℚ → List ℚ
  | [] => []
  | [_] => []
  | x :: y :: t => (y - x) :: diffsQ (y :: t)

/-- Value of the RSI series at the last index: either a rational or the
float NaN produced by the unguarded `0/0` in `calculate_rsi`. -/
inductive RsiVal where
  | nan
  | val (q : ℚ)
deriving DecidableEq, Repr

/-- Average gain over the last `period` differences (`gain.rolling(period).mean()`
at the final index). -/
def last_gain (xs : List ℚ) (period : ℕ) : ℚ :=
  ((lastN period (diffsQ xs)).map (fun d => max d 0)).sum / (period : ℚ)

/-- Average loss over the last `period` differences. -/
def last_loss (xs : List ℚ) (period : ℕ) : ℚ :=
  ((lastN period (diffsQ xs)).map (fun d => max (-d) 0)).sum / (period : ℚ)

/-- Embedding of `BaseStrategy.calculate_rsi` at the final index. The source computes
`rs = gain/loss; rsi = 100 - 100/(1+rs)` in float arithmetic with no guard:
with fewer than `period` differences the rolling means are NaN; `loss > 0`
gives the ordinary formula; `loss = 0 < gain` gives `rs = ∞` hence RSI 100;
`gain = loss = 0` gives `rs = 0/0 = NaN` hence RSI NaN. -/
def calculate_rsi_last (xs : List ℚ) (period : ℕ) : RsiVal :=
  if period = 0 ∨ (diffsQ xs).length < period then .nan
  else
    let g := last_gain xs period
    let l := last_loss xs period
    if 0 < l then .val (100 - 100 / (1 + g / l))
    else if 0 < g then .val 100
    else .nan

/-- Line 74 of `trend_following_strategy.py`: the consuming strategy reads
`rsi.iloc[-1]` and substitutes the neutral value 50 when it is NaN. -/
def current_rsi_of (v : RsiVal) : ℚ :=
  match v with
  | .nan => 50
  | .val q => q

/-- Average rank (pandas `rank()`, default method average) of the last
element of a window: ties receive the mean of their positions, which equals
`(#strictly-below) + (#equal + 1)/2`. -/
def rankAvgLast (w : List ℚ) : ℚ :=
  let cur := w.getLastD 0
  ((w.countP (fun x => decide (x < cur)) : ℚ)) + ((w.countP (fun x => decide (x = cur)) : ℚ) + 1) / 2

/-- Embedding of `BaseStrategy.calculate_percentile_rank`: rolling window of width
`lookback_days` with `min_periods=1`, applying
`50 if len(x) < 2 else (x.rank().iloc[-1] - 1)/(len(x) - 1) * 100`. -/
def calculate_percentile_rank (l : List ℚ) (lookback_days : ℕ) : List ℚ :=
  (List.range l.length).map (fun i =>
    let w := windowAt lookback_days i l
    if w.length < 2 then 50
    else (rankAvgLast w - 1) / ((w.length : ℚ) - 1) * 100)

/-- Specification-side transcription of the percentile-rank sentence of the spec:
"for each point, the fraction (0–100) of the trailing `lookback` window
strictly less than the current value; with fewer than 2 points in the
window, define rank as 50". Compared against `calculate_percentile_rank`
below. -/
def percentile_rank_strict_spec (l : List ℚ) (lookback_days : ℕ) : List ℚ :=
  (List.range l.length).map (fun i =>
    let w := windowAt lookback_days i l
    if w.length < 2 then 50
    else ((w.countP (fun x => decide (x < w.getLastD 0)) : ℚ)) / (w.length : ℚ) * 100)

/-- Exponentially weighted mean series, `Series.ewm(span=span).mean()` with
the pandas default `adjust=True`:
`y_t = Σ_{i≤t} (1-α)^(t-i) x_i / Σ_{i≤t} (1-α)^(t-i)` with `α = 2/(span+1)`. -/
def ewm_mean (span : ℕ) (l : List ℚ) : List ℚ :=
  let α : ℚ := 2 / ((span : ℚ) + 1)
  (l.foldl
    (fun (acc : ℚ × ℚ × List ℚ) x =>
      let num := (1 - α) * acc.1 + x
      let den := (1 - α) * acc.2.1 + 1
      (num, den, acc.2.2 ++ [num / den]))
    (0, 0, [])).2.2

/-- Fixed-point decimal rendering of a rational, used for the f-string
number formatting (`:.1f`, `:.2f`) inside reason strings. Rounds half away
from zero; no theorem depends on the rendered text. -/
def fmtFixed (prec : ℕ) (q : ℚ) : String :=
  let n : ℤ := if q < 0 then -⌊-q * (10 : ℚ) ^ prec + 1/2⌋ else ⌊q * (10 : ℚ) ^ prec + 1/2⌋
  let s := toString n.natAbs
  let s := if s.length < prec + 1 then String.mk (List.replicate (prec + 1 - s.length) '0') ++ s else s
  let cs := s.toList
  let k := cs.length - prec
  (if n < 0 then "-" else "") ++
    String.mk (cs.take k) ++ (if prec = 0 then "" else "." ++ String.mk (cs.drop k))

/-! ## Moving-Average-Cross strategy (`ma_cross_strategy.py`) -/

/-- Configuration of `MACrossStrategy` (`default_config` in `__init__`). -/
structure MaCfg where
  short_period : ℕ
  long_period : ℕ
  volume_threshold : ℚ
  min_data_points : ℕ
deriving DecidableEq, Repr

/-- The default `MACrossStrategy` configuration (5 / 20 / 1.2 / 25);
`settings.STRATEGY_CONFIG` repeats the first three values and overrides
nothing. -/
def default_ma_cfg : MaCfg := ⟨5, 20, 12/10, 25⟩

/-- Slope of the degree-1 least-squares fit (`np.polyfit(x, y, 1)[0]` with
`x = 0, …, n-1`); totalised to `0` when the denominator vanishes (the source
only calls it on windows of at least two points). -/
def least_squares_slope (ys : List ℚ) : ℚ :=
  let n := ys.length
  let xbar : ℚ := ((n : ℚ) - 1) / 2
  let ybar := meanQ ys
  let pts := (List.range n).zip ys
  let num := (pts.map (fun p => ((p.1 : ℚ) - xbar) * (p.2 - ybar))).sum
  let den := (pts.map (fun p => ((p.1 : ℚ) - xbar) ^ 2)).sum
  if den = 0 then 0 else num / den

/-- Embedding of `MACrossStrategy._calculate_price_trend`: least-squares slope over the
trailing `period` (default 10) points, normalised by the mean price, scaled
×10 and clamped to `[-1, 1]`. -/
def calculate_price_trend (prices : List ℚ) (period : ℕ := 10) : ℚ :=
  let period := if prices.length < period then prices.length else period
  let recent := lastN period prices
  let slope := least_squares_slope recent
  let avg_price := meanQ recent
  let normalized_slope := slope * (period : ℚ) / avg_price
  max (-1) (min 1 (normalized_slope * 10))

/-- The net-value column of the frame after sorting by date. -/
def navValues (d : NavData) : List ℚ := (sort_by_date d.rows).map (·.net_value)

/-- Short moving average at the last index. -/
def ma_short_last (cfg : MaCfg) (d : NavData) : ℚ :=
  (calculate_moving_average (navValues d) cfg.short_period).getLastD 0

/-- Long moving average at the last index. -/
def ma_long_last (cfg : MaCfg) (d : NavData) : ℚ :=
  (calculate_moving_average (navValues d) cfg.long_period).getLastD 0

/-- Short moving average at the previous index (`iloc[-2]`), equal to the
current one when fewer than two points exist. -/
def ma_short_prev (cfg : MaCfg) (d : NavData) : ℚ :=
  let ma := calculate_moving_average (navValues d) cfg.short_period
  if 2 ≤ ma.length then ma.getD (ma.length - 2) 0 else ma_short_last cfg d

/-- Long moving average at the previous index. -/
def ma_long_prev (cfg : MaCfg) (d : NavData) : ℚ :=
  let ma := calculate_moving_average (navValues d) cfg.long_period
  if 2 ≤ ma.length then ma.getD (ma.length - 2) 0 else ma_long_last cfg d

/-- Relative gap between the moving averages at the last index, in percent:
`(short - long) / long * 100`. -/
def ma_diff_pct (cfg : MaCfg) (d : NavData) : ℚ :=
  (ma_short_last cfg d - ma_long_last cfg d) / ma_long_last cfg d * 100

/-- Golden cross: short average was `≤` the long one and is now `>`. -/
def golden_cross (cfg : MaCfg) (d : NavData) : Bool :=
  decide (ma_short_prev cfg d ≤ ma_long_prev cfg d) &&
    decide (ma_long_last cfg d < ma_short_last cfg d)

/-- Death cross: short average was `≥` the long one and is now `<`. -/
def death_cross (cfg : MaCfg) (d : NavData) : Bool :=
  decide (ma_long_prev cfg d ≤ ma_short_prev cfg d) &&
    decide (ma_short_last cfg d < ma_long_last cfg d)

/-- Volume amplification factor: when a volume column exists and is not
all-NaN, `min(mean(last-5 volumes) / mean(all volumes), 2.0)` provided the
overall mean is positive; `1.0` otherwise (pandas `mean` skips NaN cells). -/
def volume_factor (d : NavData) : ℚ :=
  let vols := (sort_by_date d.rows).map (·.volume)
  if d.has_volume && vols.any (·.isSome) then
    let recent_volume := meanQ ((lastN 5 vols).filterMap id)
    let avg_volume := meanQ (vols.filterMap id)
    if 0 < avg_volume then min (recent_volume / avg_volume) 2 else 1
  else 1

/-- Embedding of `MACrossStrategy.calculate_signal`, translated line by line: validation
fallback, golden/death-cross branches with the
`min(|gap|/2, 0.8) + (volume_factor-1)·0.2 + max(±trend,0)·0.3` strength
(clamped to 1), and the no-cross persistence branch. -/
def ma_cross_calculate_signal (cfg : MaCfg) (d : NavData) : Signal :=
  if !validate_data cfg.min_data_points d then
    mkSignal .HOLD 0 "数据不足或无效，无法计算信号"
  else
    let diff_pct := ma_diff_pct cfg d
    let vf := volume_factor d
    let price_trend := calculate_price_trend (navValues d)
    let base_reason_g := "金叉信号：短期均线(" ++ toString cfg.short_period ++
      "日)上穿长期均线(" ++ toString cfg.long_period ++ "日)"
    let base_reason_d := "死叉信号：短期均线(" ++ toString cfg.short_period ++
      "日)下穿长期均线(" ++ toString cfg.long_period ++ "日)"
    let vol_note := "，成交量放大" ++ fmtFixed 1 vf ++ "倍"
    let tsr : SignalType × ℚ × String :=
      if golden_cross cfg d then
        let base_strength := min (|diff_pct| / 2) (4/5)
        let volume_adjustment := (vf - 1) * (1/5)
        let trend_adjustment := max price_trend 0 * (3/10)
        (.BUY, min (base_strength + volume_adjustment + trend_adjustment) 1,
          if cfg.volume_threshold < vf then base_reason_g ++ vol_note else base_reason_g)
      else if death_cross cfg d then
        let base_strength := min (|diff_pct| / 2) (4/5)
        let volume_adjustment := (vf - 1) * (1/5)
        let trend_adjustment := max (-price_trend) 0 * (3/10)
        (.SELL, min (base_strength + volume_adjustment + trend_adjustment) 1,
          if cfg.volume_threshold < vf then base_reason_d ++ vol_note else base_reason_d)
      else if 1 < |diff_pct| then
        if 0 < ma_short_last cfg d - ma_long_last cfg d then
          (.BUY, min (|diff_pct| / 5) (3/5),
            "短期均线持续在长期均线上方 " ++ fmtFixed 2 diff_pct ++ "%，维持看涨")
        else
          (.SELL, min (|diff_pct| / 5) (3/5),
            "短期均线持续在长期均线下方 " ++ fmtFixed 2 |diff_pct| ++ "%，维持看跌")
      else
        (.HOLD, 0, "均线粘合，等待明确方向信号")
    mkSignal tsr.1 tsr.2.1 tsr.2.2

/-! ## Dynamic DCA strategy (`dynamic_dca_strategy.py`) -/

/-- Configuration of `DynamicDCAStrategy` (`default_config` in `__init__`). -/
structure DcaCfg where
  low_percentile : ℚ
  high_percentile : ℚ
  lookback_days : ℕ
  min_data_points : ℕ
  pe_weight : ℚ
  pb_weight : ℚ
  price_weight : ℚ
deriving DecidableEq, Repr

/-- The default `DynamicDCAStrategy` configuration (25 / 75 / 252 / 60 /
0.4 / 0.3 / 0.3). -/
def default_dca_cfg : DcaCfg := ⟨25, 75, 252, 60, 4/10, 3/10, 3/10⟩

/-- Embedding of `DynamicDCAStrategy._calculate_price_percentile`: share (0–100) of the
trailing `lookback_days` window strictly below the current price. -/
def calculate_price_percentile (cfg : DcaCfg) (values : List ℚ) : ℚ :=
  let lookback := min cfg.lookback_days values.length
  let current_price := values.getLastD 0
  let historical := lastN lookback values
  ((historical.countP (fun x => decide (x < current_price)) : ℚ)) / (historical.length : ℚ) * 100

/-- Embedding of `DynamicDCAStrategy._calculate_valuation_metrics`, PE part: current
price over its 60-period moving average, percentile-ranked over the last
`min(lookback_days, n - 60)` ratios when more than 30 of them exist,
otherwise the neutral 50. -/
def pe_percentile (cfg : DcaCfg) (values : List ℚ) : ℚ :=
  let long_ma := calculate_moving_average values 60
  let current_pe := values.getLastD 0 / long_ma.getLastD 0
  let lookback := min cfg.lookback_days (values.length - 60)
  if 30 < lookback then
    let historical_pe := List.zipWith (· / ·) (lastN lookback values) (lastN lookback long_ma)
    ((historical_pe.countP (fun x => decide (x < current_pe)) : ℚ)) / (historical_pe.length : ℚ) * 100
  else 50

/-- Minimum of a list of rationals (`0` on the empty list; use sites are
non-empty). -/
def listMinD (l : List ℚ) : ℚ :=
  match l with
  | [] => 0
  | x :: xs => xs.foldl min x

/-- Embedding of `DynamicDCAStrategy._calculate_valuation_metrics`, PB part: current
price over the minimum of the trailing `lookback_days` window,
percentile-ranked against price over the rolling 30-period minimum when more
than 30 points exist, otherwise the neutral 50. -/
def pb_percentile (cfg : DcaCfg) (values : List ℚ) : ℚ :=
  let historical_low := listMinD (lastN (min cfg.lookback_days values.length) values)
  let current_pb := values.getLastD 0 / historical_low
  if 30 < values.length then
    let rolling_low := (List.range values.length).map (fun i => listMinD (windowAt 30 i values))
    let historical_pb := List.zipWith (· / ·) values rolling_low
    ((historical_pb.countP (fun x => decide (x < current_pb)) : ℚ)) / (historical_pb.length : ℚ) * 100
  else 50

/-- Embedding of `DynamicDCAStrategy._calculate_composite_percentile`: weighted sum of
the price, PE-proxy and PB-proxy percentiles. -/
def calculate_composite_percentile (cfg : DcaCfg) (values : List ℚ) : ℚ :=
  calculate_price_percentile cfg values * cfg.price_weight +
    pe_percentile cfg values * cfg.pe_weight +
    pb_percentile cfg values * cfg.pb_weight

/-- The last 20 daily returns used for market sentiment: the
`daily_return` column when present, else `pct_change() * 100`, in both cases
`tail(20).dropna()`. -/
def recentReturns (d : NavData) : List ℚ :=
  let rows := sort_by_date d.rows
  if d.has_daily_return then
    (lastN 20 (rows.map (·.daily_return))).filterMap id
  else
    let col : List (Option ℚ) := none :: (diffsQ (rows.map (·.net_value))).zipWith
      (fun δ prev => some (δ / prev)) (rows.map (·.net_value))
    ((lastN 20 col).filterMap id).map (· * 100)

/-- Embedding of `DynamicDCAStrategy._calculate_market_sentiment`: skewness of the last
20 standardised returns combined 30/70 with `mean/max(std, 0.1)`, clamped to
`[-1, 1]`; `0` with fewer than 5 returns or zero standard deviation.
`sqrtQ` stands for the square root inside `Series.std()`. -/
def calculate_market_sentiment (sqrtQ : ℚ → ℚ) (d : NavData) : ℚ :=
  let recent := recentReturns d
  if recent.length < 5 then 0
  else
    let mean_return := meanQ recent
    let std_return := sqrtQ (sampleVar recent)
    if std_return = 0 then 0
    else
      let normalized := recent.map (fun x => (x - mean_return) / std_return)
      let skewness := meanQ (normalized.map (· ^ 3))
      let sentiment := mean_return / max std_return (1/10) * (7/10) + skewness * (3/10)
      max (-1) (min 1 sentiment)

/-- Embedding of `DynamicDCAStrategy._calculate_trend_factor`: 60/40 blend of the price
deviation from the 5- and 20-period moving averages, scaled ×10 and clamped
to `[-1, 1]`; `0` with fewer than 20 points. -/
def calculate_trend_factor (values : List ℚ) : ℚ :=
  if values.length < 20 then 0
  else
    let ma_5 := (calculate_moving_average values 5).getLastD 0
    let ma_20 := (calculate_moving_average values 20).getLastD 0
    let current_price := values.getLastD 0
    let trend_5 := (current_price - ma_5) / ma_5
    let trend_20 := (current_price - ma_20) / ma_20
    max (-1) (min 1 ((trend_5 * (6/10) + trend_20 * (4/10)) * 10))

/-- Embedding of `DynamicDCAStrategy._generate_signal`: low/high-threshold branches with
sentiment and trend boosts, and the neutral zone split at the midpoint with
the `< 0.2 → HOLD` override. -/
def dca_generate_signal (cfg : DcaCfg) (composite_percentile market_sentiment : ℚ)
    (values : List ℚ) : SignalType × ℚ × String :=
  let low_threshold := cfg.low_percentile
  let high_threshold := cfg.high_percentile
  let trend_factor := calculate_trend_factor values
  if composite_percentile ≤ low_threshold then
    let base_strength := (low_threshold - composite_percentile) / low_threshold * (8/10) + 2/10
    let sentiment_adjustment := max (-market_sentiment) 0 * (2/10)
    let trend_adjustment := max (-trend_factor) 0 * (1/10)
    let strength := min (base_strength + sentiment_adjustment + trend_adjustment) 1
    let reason := "估值处于历史低位(" ++ fmtFixed 1 composite_percentile ++ "%分位)，建议逢低买入"
    (.BUY, strength,
      if market_sentiment < -(3/10) then reason ++ "，市场情绪悲观提供更好买入机会" else reason)
  else if high_threshold ≤ composite_percentile then
    let base_strength := (composite_percentile - high_threshold) / (100 - high_threshold) * (8/10) + 2/10
    let sentiment_adjustment := max market_sentiment 0 * (2/10)
    let trend_adjustment := max trend_factor 0 * (1/10)
    let strength := min (base_strength + sentiment_adjustment + trend_adjustment) 1
    let reason := "估值处于历史高位(" ++ fmtFixed 1 composite_percentile ++ "%分位)，建议获利了结"
    (.SELL, strength,
      if 3/10 < market_sentiment then reason ++ "，市场情绪过于乐观需要谨慎" else reason)
  else
    let mid_point := (low_threshold + high_threshold) / 2
    let tsr : SignalType × ℚ × String :=
      if composite_percentile < mid_point then
        (.BUY, (mid_point - composite_percentile) / (mid_point - low_threshold) * (5/10),
          "估值适中偏低(" ++ fmtFixed 1 composite_percentile ++ "%分位)，可考虑分批买入")
      else
        (.SELL, (composite_percentile - mid_point) / (high_threshold - mid_point) * (5/10),
          "估值适中偏高(" ++ fmtFixed 1 composite_percentile ++ "%分位)，可考虑分批减仓")
    if tsr.2.1 < 2/10 then
      (.HOLD, 0, "估值处于中性区域(" ++ fmtFixed 1 composite_percentile ++ "%分位)，建议持有观望")
    else tsr

/-- Embedding of `DynamicDCAStrategy.calculate_signal`: validation fallback, composite
percentile, sentiment, and `_generate_signal`. -/
def dca_calculate_signal (sqrtQ : ℚ → ℚ) (cfg : DcaCfg) (d : NavData) : Signal :=
  if !validate_data cfg.min_data_points d then
    mkSignal .HOLD 0 "数据不足或无效，无法计算信号"
  else
    let values := navValues d
    let composite := calculate_composite_percentile cfg values
    let sentiment := calculate_market_sentiment sqrtQ d
    let tsr := dca_generate_signal cfg composite sentiment values
    mkSignal tsr.1 tsr.2.1 tsr.2.2

/-! ## Trend-following strategy (`trend_following_strategy.py`) -/

/-- Configuration of `TrendFollowingStrategy` (`default_config`). -/
structure TrendCfg where
  rsi_period : ℕ
  rsi_oversold : ℚ
  rsi_overbought : ℚ
  macd_fast : ℕ
  macd_slow : ℕ
  macd_signal : ℕ
  bb_period : ℕ
  bb_std : ℚ
  min_data_points : ℕ
deriving DecidableEq, Repr

/-- The default `TrendFollowingStrategy` configuration
(14 / 30 / 70 / 12 / 26 / 9 / 20 / 2 / 30). -/
def default_trend_cfg : TrendCfg := ⟨14, 30, 70, 12, 26, 9, 20, 2, 30⟩

/-- One per-indicator sub-signal: the dict with type, strength and reason keys. -/
structure SubSig where
  type : SignalType
  strength : ℚ
  reason : String
deriving DecidableEq, Repr

/-- Embedding of `TrendFollowingStrategy._analyze_rsi_signal`. -/
def analyze_rsi_signal (cfg : TrendCfg) (rsi : ℚ) : SubSig :=
  if rsi ≤ cfg.rsi_oversold then
    ⟨.BUY, (cfg.rsi_oversold - rsi) / cfg.rsi_oversold,
      "RSI(" ++ fmtFixed 1 rsi ++ ")进入超卖区域"⟩
  else if cfg.rsi_overbought ≤ rsi then
    ⟨.SELL, (rsi - cfg.rsi_overbought) / (100 - cfg.rsi_overbought),
      "RSI(" ++ fmtFixed 1 rsi ++ ")进入超买区域"⟩
  else if rsi < 45 then
    ⟨.BUY, (45 - rsi) / 15 * (3/10), "RSI(" ++ fmtFixed 1 rsi ++ ")偏向超卖"⟩
  else if 55 < rsi then
    ⟨.SELL, (rsi - 55) / 15 * (3/10), "RSI(" ++ fmtFixed 1 rsi ++ ")偏向超买"⟩
  else
    ⟨.HOLD, 0, "RSI(" ++ fmtFixed 1 rsi ++ ")处于中性区域"⟩

/-- Embedding of `TrendFollowingStrategy._analyze_macd_signal`. -/
def analyze_macd_signal (current_macd current_signal prev_macd prev_signal histogram : ℚ) :
    SubSig :=
  if prev_macd ≤ prev_signal ∧ current_signal < current_macd then
    ⟨.BUY, min (|histogram| * 1000) (8/10) + 2/10, "MACD线上穿信号线，趋势转强"⟩
  else if prev_signal ≤ prev_macd ∧ current_macd < current_signal then
    ⟨.SELL, min (|histogram| * 1000) (8/10) + 2/10, "MACD线下穿信号线，趋势转弱"⟩
  else if current_signal < current_macd then
    if 0 < histogram then
      ⟨.BUY, min (histogram * 500) (6/10), "MACD保持在信号线上方，趋势向好"⟩
    else
      ⟨.HOLD, 0, "MACD在信号线上方但动能减弱"⟩
  else
    if histogram < 0 then
      ⟨.SELL, min (|histogram| * 500) (6/10), "MACD保持在信号线下方，趋势偏弱"⟩
    else
      ⟨.HOLD, 0, "MACD在信号线下方但有企稳迹象"⟩

/-- Embedding of `TrendFollowingStrategy._analyze_bollinger_signal`. -/
def analyze_bollinger_signal (price upper _middle lower : ℚ) : SubSig :=
  let bb_width := upper - lower
  let bb_position := if 0 < bb_width then (price - lower) / bb_width else 1/2
  if price ≤ lower then
    ⟨.BUY, min ((lower - price) / lower * 100) (8/10) + 2/10,
      "价格触及布林带下轨，可能超跌反弹"⟩
  else if upper ≤ price then
    ⟨.SELL, min ((price - upper) / upper * 100) (8/10) + 2/10,
      "价格触及布林带上轨，可能超涨回调"⟩
  else if bb_position < 2/10 then
    ⟨.BUY, (2/10 - bb_position) * 2,
      "价格接近布林带下轨(" ++ fmtFixed 1 (bb_position * 100) ++ "%位置)"⟩
  else if 8/10 < bb_position then
    ⟨.SELL, (bb_position - 8/10) * 2,
      "价格接近布林带上轨(" ++ fmtFixed 1 (bb_position * 100) ++ "%位置)"⟩
  else
    ⟨.HOLD, 0, "价格在布林带中部(" ++ fmtFixed 1 (bb_position * 100) ++ "%位置)"⟩

/-- Embedding of `TrendFollowingStrategy._calculate_trend_strength`: moving-average
alignment score (full ±1 or additive ±0.4/±0.3/±0.3) blended 70/30 with
10-period momentum ×10, clamped to `[-1, 1]`. -/
def calculate_trend_strength (values : List ℚ) : ℚ :=
  let current_price := values.getLastD 0
  let current_ma5 := (calculate_moving_average values 5).getLastD 0
  let current_ma10 := (calculate_moving_average values 10).getLastD 0
  let current_ma20 := (calculate_moving_average values 20).getLastD 0
  let alignment_score : ℚ :=
    if current_ma5 < current_price ∧ current_ma10 < current_ma5 ∧ current_ma20 < current_ma10 then 1
    else if current_price < current_ma5 ∧ current_ma5 < current_ma10 ∧ current_ma10 < current_ma20 then -1
    else
      (if current_ma5 < current_price then (4/10 : ℚ) else -(4/10)) +
        (if current_ma10 < current_ma5 then (3/10 : ℚ) else -(3/10)) +
        (if current_ma20 < current_ma10 then (3/10 : ℚ) else -(3/10))
  let momentum : ℚ :=
    if 10 ≤ values.length then
      let past := values.getD (values.length - 10) 0
      (current_price - past) / past
    else 0
  max (-1) (min 1 (alignment_score * (7/10) + momentum * 10 * (3/10)))

/-- Embedding of `TrendFollowingStrategy._synthesize_signals`: sum the strengths of the
agreeing sub-signals, boost the buy sum ×1.2 when trend-strength > 0.3 (else
the sell sum ×1.2 when trend-strength < −0.3), then take BUY when at least
two sub-signals are BUY or exactly one is and the (boosted) buy sum exceeds
0.6; else SELL symmetrically; else HOLD with strength 0. -/
def synthesize_signals (rsi_signal macd_signal bb_signal : SubSig) (trend_strength : ℚ) :
    SignalType × ℚ × String :=
  let signals := [rsi_signal, macd_signal, bb_signal]
  let buy_signals := signals.filter (fun s => s.type == .BUY)
  let sell_signals := signals.filter (fun s => s.type == .SELL)
  let buy_strength0 := (buy_signals.map (·.strength)).sum
  let sell_strength0 := (sell_signals.map (·.strength)).sum
  -- boost of the source: trend above 0.3 scales the buy sum by 1.2, else a
  -- trend below -0.3 scales the sell sum; the guards are mutually exclusive
  let buy_strength := if 3/10 < trend_strength then buy_strength0 * (12/10) else buy_strength0
  let sell_strength := if trend_strength < -(3/10) then sell_strength0 * (12/10) else sell_strength0
  if 2 ≤ buy_signals.length ∨ (buy_signals.length = 1 ∧ 3/5 < buy_strength) then
    let final_strength :=
      min (if !buy_signals.isEmpty then buy_strength / (buy_signals.length : ℚ) else 0) 1
    let reasons := buy_signals.map (·.reason) ++
      (if 3/10 < trend_strength then ["整体趋势向好(强度" ++ fmtFixed 2 trend_strength ++ ")"] else [])
    (.BUY, final_strength, String.intercalate "; " reasons)
  else if 2 ≤ sell_signals.length ∨ (sell_signals.length = 1 ∧ 3/5 < sell_strength) then
    let final_strength :=
      min (if !sell_signals.isEmpty then sell_strength / (sell_signals.length : ℚ) else 0) 1
    let reasons := sell_signals.map (·.reason) ++
      (if trend_strength < -(3/10) then ["整体趋势偏弱(强度" ++ fmtFixed 2 trend_strength ++ ")"] else [])
    (.SELL, final_strength, String.intercalate "; " reasons)
  else
    let reason :=
      if buy_signals.length = sell_signals.length ∧ 0 < buy_signals.length then
        "技术指标信号冲突，建议观望等待明确方向"
      else
        let all_reasons := (signals.filter (fun s => decide (0 < s.strength))).map (·.reason)
        if !all_reasons.isEmpty then
          "信号强度不足: " ++ String.intercalate "; " all_reasons
        else "各项技术指标均处于中性状态"
    (.HOLD, 0, reason)

/-- Embedding of `TrendFollowingStrategy.calculate_signal`: validation fallback, the
RSI/MACD/Bollinger sub-signals at the last index (with the NaN-RSI → 50
substitution of line 74), trend strength, and `_synthesize_signals`.
`sqrtQ` stands for the square root inside the rolling `std` of the
Bollinger bands. -/
def trend_following_calculate_signal (sqrtQ : ℚ → ℚ) (cfg : TrendCfg) (d : NavData) : Signal :=
  if !validate_data cfg.min_data_points d then
    mkSignal .HOLD 0 "数据不足或无效，无法计算信号"
  else
    let values := navValues d
    let n := values.length
    let current_rsi := current_rsi_of (calculate_rsi_last values cfg.rsi_period)
    let macd_line := List.zipWith (· - ·) (ewm_mean cfg.macd_fast values) (ewm_mean cfg.macd_slow values)
    let signal_line := ewm_mean cfg.macd_signal macd_line
    let histogram := List.zipWith (· - ·) macd_line signal_line
    let current_macd := macd_line.getLastD 0
    let current_signal := signal_line.getLastD 0
    let current_histogram := histogram.getLastD 0
    let current_price := values.getLastD 0
    let bb_window := windowAt cfg.bb_period (n - 1) values
    let current_middle_bb := meanQ bb_window
    let sd := sqrtQ (sampleVar (lastN cfg.bb_period values))
    let current_upper_bb := current_middle_bb + sd * cfg.bb_std
    let current_lower_bb := current_middle_bb - sd * cfg.bb_std
    let prev_macd := if 2 ≤ n then macd_line.getD (n - 2) 0 else current_macd
    let prev_signal := if 2 ≤ n then signal_line.getD (n - 2) 0 else current_signal
    let rsi_sig := analyze_rsi_signal cfg current_rsi
    let macd_sig := analyze_macd_signal current_macd current_signal prev_macd prev_signal current_histogram
    let bb_sig := analyze_bollinger_signal current_price current_upper_bb current_middle_bb current_lower_bb
    let trend_strength := calculate_trend_strength values
    let tsr := synthesize_signals rsi_sig macd_sig bb_sig trend_strength
    mkSignal tsr.1 tsr.2.1 tsr.2.2

/-! ## Strategy manager (`strategy_manager.py`)

The run of a registered strategy on the given series is modelled by its outcome:
`Except.ok signal` for a normal return, `Except.error msg` for a raised
exception. The registry is the ordered association list of
`(name, outcome)` pairs. -/

/-- The evaluation of one strategy: a returned signal or a raised exception. -/
abbrev StrategyOutcome := Except String Signal

/-- Embedding of `StrategyManager.calculate_all_signals`: run every registered strategy,
keep the successful results, and skip (only) the strategies that raised. -/
def calculate_all_signals : List (String × StrategyOutcome) → List (String × Signal)
  | [] => []
  | (name, .ok s) :: rest => (name, s) :: calculate_all_signals rest
  | (_, .error _) :: rest => calculate_all_signals rest

/-- Embedding of the lookup `strategy_weights.get(name, 0.0)`: first-match lookup with default 0. -/
def lookupW (w : List (String × ℚ)) (n : String) : ℚ :=
  match w with
  | [] => 0
  | (m, x) :: t => if m = n then x else lookupW t n

/-- The accumulator of the consensus loop: weighted BUY/SELL buckets, the
bare-weight HOLD bucket, the total weight, and the per-strategy detail
strings. -/
structure ConsAcc where
  buy : ℚ
  sell : ℚ
  hold : ℚ
  total : ℚ
  details : List String
deriving DecidableEq, Repr

/-- One iteration of the consensus loop (`for name, signal in
all_signals.items()`): skip non-positive weights, add the weight to the
total, and accumulate `weight × strength` (BUY/SELL) or the bare weight
(HOLD). -/
def consensus_step (w : List (String × ℚ)) (acc : ConsAcc) (p : String × Signal) : ConsAcc :=
  let weight := lookupW w p.1
  if weight ≤ 0 then acc
  else
    let acc := { acc with total := acc.total + weight }
    match p.2.signal_type with
    | .BUY =>
      { acc with
          buy := acc.buy + weight * p.2.strength,
          details := acc.details ++ [p.1 ++ ":买入(" ++ fmtFixed 2 p.2.strength ++ ")"] }
    | .SELL =>
      { acc with
          sell := acc.sell + weight * p.2.strength,
          details := acc.details ++ [p.1 ++ ":卖出(" ++ fmtFixed 2 p.2.strength ++ ")"] }
    | .HOLD =>
      { acc with
          hold := acc.hold + weight,
          details := acc.details ++ [p.1 ++ ":持有"] }

/-- The whole consensus accumulation loop. -/
def consensus_fold (w : List (String × ℚ)) (sigs : List (String × Signal)) (acc : ConsAcc) :
    ConsAcc :=
  sigs.foldl (consensus_step w) acc

/-- Embedding of `StrategyManager.get_consensus_signal`: default the weights to 1.0 per
registered strategy when none (or an empty dict) is supplied, run all
strategies, return the early HOLD signals when no strategy produced a result
or the total weight is zero, otherwise normalise the buckets by the total
weight and decide BUY / SELL / HOLD by the `> 0.3` floor rule. -/
def get_consensus_signal (outcomes : List (String × StrategyOutcome))
    (strategy_weights : Option (List (String × ℚ))) : Signal :=
  let weights : List (String × ℚ) :=
    match strategy_weights with
    | none => outcomes.map (fun p => (p.1, 1))
    | some [] => outcomes.map (fun p => (p.1, 1))
    | some w => w
  let all_signals := calculate_all_signals outcomes
  if all_signals.isEmpty then mkSignal .HOLD 0 "无可用策略信号"
  else
    let acc := consensus_fold weights all_signals ⟨0, 0, 0, 0, []⟩
    if acc.total = 0 then mkSignal .HOLD 0 "所有策略权重为零"
    else
      let buy_weight := acc.buy / acc.total
      let sell_weight := acc.sell / acc.total
      let tsr : SignalType × ℚ × String :=
        if sell_weight < buy_weight ∧ 3/10 < buy_weight then
          (.BUY, buy_weight, "综合策略偏向买入 (买入强度:" ++ fmtFixed 2 buy_weight ++
            ", 卖出强度:" ++ fmtFixed 2 sell_weight ++ ")")
        else if buy_weight < sell_weight ∧ 3/10 < sell_weight then
          (.SELL, sell_weight, "综合策略偏向卖出 (买入强度:" ++ fmtFixed 2 buy_weight ++
            ", 卖出强度:" ++ fmtFixed 2 sell_weight ++ ")")
        else
          (.HOLD, 0, "综合策略建议持有 (买入强度:" ++ fmtFixed 2 buy_weight ++
            ", 卖出强度:" ++ fmtFixed 2 sell_weight ++ ")")
      let reason :=
        if !acc.details.isEmpty then
          tsr.2.2 ++ " | 策略详情: " ++ String.intercalate ", " acc.details
        else tsr.2.2
      mkSignal tsr.1 tsr.2.1 reason

/-! ## Specification-side bucket formulas

The following four definitions transcribe the description in the spec of the
consensus accumulation ("accumulate `weight × strength` into a BUY bucket or
SELL bucket (by signal type) and accumulate bare `weight` into a HOLD
bucket"); the theorems below compare them with the loop above. -/

/-- Spec-side BUY bucket: sum of `weight × strength` over BUY results. -/
def bucket_buy (w : List (String × ℚ)) (sigs : List (String × Signal)) : ℚ :=
  (sigs.map (fun p => if p.2.signal_type = .BUY then lookupW w p.1 * p.2.strength else 0)).sum

/-- Spec-side SELL bucket: sum of `weight × strength` over SELL results. -/
def bucket_sell (w : List (String × ℚ)) (sigs : List (String × Signal)) : ℚ :=
  (sigs.map (fun p => if p.2.signal_type = .SELL then lookupW w p.1 * p.2.strength else 0)).sum

/-- Spec-side HOLD bucket: sum of the bare weights over HOLD results. -/
def bucket_hold (w : List (String × ℚ)) (sigs : List (String × Signal)) : ℚ :=
  (sigs.map (fun p => if p.2.signal_type = .HOLD then lookupW w p.1 else 0)).sum

/-- Spec-side total weight: sum of the weights of all results. -/
def bucket_total (w : List (String × ℚ)) (sigs : List (String × Signal)) : ℚ :=
  (sigs.map (fun p => lookupW w p.1)).sum

/-! ## Concrete data used by witnesses and counterexamples -/

/-- An empty frame, for the C2 witness. -/
def emptyNavData : NavData := ⟨true, true, false, false, []⟩

/-- A 25-point series flat at 1.0 that jumps to 1.5 on the last day: the
5-day average leaves the 20-day average from below, a golden cross. -/
def goldenCrossData : NavData :=
  ⟨true, true, false, false,
    (List.range 25).map (fun i => ⟨i, if i < 24 then 1 else 3/2, none, none⟩)⟩

/-- A 25-point series flat at 1.0 with the last five days at 1.2: the 5-day
average sits well above the 20-day average on both of the last two days, so
no cross occurs, yet the persistence branch fires. -/
def persistenceData : NavData :=
  ⟨true, true, false, false,
    (List.range 25).map (fun i => ⟨i, if i < 20 then 1 else 12/10, none, none⟩)⟩

/-- The consensus example of the spec: three strategies reporting BUY/0.5,
SELL/0.1 and HOLD. -/
def exampleSignals : List (String × Signal) :=
  [("s1", mkSignal .BUY (1/2) ""),
   ("s2", mkSignal .SELL (1/10) ""),
   ("s3", mkSignal .HOLD 0 "")]

/-- The example batch as strategy outcomes (all three return normally). -/
def exampleOutcomes : List (String × StrategyOutcome) :=
  exampleSignals.map (fun p => (p.1, Except.ok p.2))

/-- Equal weight 1.0 per strategy, the documented default. -/
def exampleWeights : List (String × ℚ) :=
  exampleSignals.map (fun p => (p.1, 1))

/-! ## Theorems -/

/-- Projection of the constructor: the type is stored unchanged. -/
@[simp] theorem mkSignal_signal_type (t : SignalType) (s : ℚ) (r : String) :
    (mkSignal t s r).signal_type = t := rfl

/-- Projection of the constructor: the reason is stored unchanged. -/
@[simp] theorem mkSignal_reason (t : SignalType) (s : ℚ) (r : String) :
    (mkSignal t s r).reason = r := rfl

/-- Projection of the constructor: the stored strength is the clamp. -/
@[simp] theorem mkSignal_strength (t : SignalType) (s : ℚ) (r : String) :
    (mkSignal t s r).strength = max 0 (min 1 s) := rfl

/-- The constructor clamp: any constructed signal has strength in `[0, 1]`. -/
theorem mkSignal_strength_bounds (t : SignalType) (s : ℚ) (r : String) :
    0 ≤ (mkSignal t s r).strength ∧ (mkSignal t s r).strength ≤ 1 :=
  ⟨le_max_left 0 _, max_le (by norm_num) (min_le_left 1 s)⟩

/-- C3: every `StrategySignal` stores a strength clamped to `[0, 1]` at
construction, and consequently every signal returned by the three
strategy entry points and by `get_consensus_signal` has strength in
`[0, 1]`, whatever the inputs (and whatever value the square-root oracle
takes). -/
theorem strength_always_clamped :
    (∀ (t : SignalType) (s : ℚ) (r : String),
        0 ≤ (mkSignal t s r).strength ∧ (mkSignal t s r).strength ≤ 1) ∧
    (∀ (cfg : MaCfg) (d : NavData),
        0 ≤ (ma_cross_calculate_signal cfg d).strength ∧
          (ma_cross_calculate_signal cfg d).strength ≤ 1) ∧
    (∀ (sqrtQ : ℚ → ℚ) (cfg : DcaCfg) (d : NavData),
        0 ≤ (dca_calculate_signal sqrtQ cfg d).strength ∧
          (dca_calculate_signal sqrtQ cfg d).strength ≤ 1) ∧
    (∀ (sqrtQ : ℚ → ℚ) (cfg : TrendCfg) (d : NavData),
        0 ≤ (trend_following_calculate_signal sqrtQ cfg d).strength ∧
          (trend_following_calculate_signal sqrtQ cfg d).strength ≤ 1) ∧
    (∀ (outcomes : List (String × StrategyOutcome))
        (w : Option (List (String × ℚ))),
        0 ≤ (get_consensus_signal outcomes w).strength ∧
          (get_consensus_signal outcomes w).strength ≤ 1) := by
  refine ⟨mkSignal_strength_bounds, ?_, ?_, ?_, ?_⟩
  · intro cfg d
    unfold ma_cross_calculate_signal
    split
    · exact mkSignal_strength_bounds _ _ _
    · exact mkSignal_strength_bounds _ _ _
  · intro sqrtQ cfg d
    unfold dca_calculate_signal
    split
    · exact mkSignal_strength_bounds _ _ _
    · exact mkSignal_strength_bounds _ _ _
  · intro sqrtQ cfg d
    unfold trend_following_calculate_signal
    split
    · exact mkSignal_strength_bounds _ _ _
    · exact mkSignal_strength_bounds _ _ _
  · intro outcomes w
    unfold get_consensus_signal
    dsimp only
    split
    · exact mkSignal_strength_bounds _ _ _
    · split
      · exact mkSignal_strength_bounds _ _ _
      · exact mkSignal_strength_bounds _ _ _

/-- C2: `validate_data` fails exactly on an empty frame, a missing required
column, or a too-short series, and for each of the three strategies
`calculate_signal` answers a failed validation with the HOLD / strength-0 /
insufficient-data signal (being a total function, it cannot raise). -/
theorem invalid_data_gives_hold_zero :
    (∀ (m : ℕ) (d : NavData),
        validate_data m d = false ↔
          (d.rows = [] ∨ d.has_date = false ∨ d.has_net_value = false ∨ d.rows.length < m)) ∧
    (∀ (cfg : MaCfg) (d : NavData), validate_data cfg.min_data_points d = false →
        ma_cross_calculate_signal cfg d = mkSignal .HOLD 0 "数据不足或无效，无法计算信号") ∧
    (∀ (sqrtQ : ℚ → ℚ) (cfg : DcaCfg) (d : NavData),
        validate_data cfg.min_data_points d = false →
        dca_calculate_signal sqrtQ cfg d = mkSignal .HOLD 0 "数据不足或无效，无法计算信号") ∧
    (∀ (sqrtQ : ℚ → ℚ) (cfg : TrendCfg) (d : NavData),
        validate_data cfg.min_data_points d = false →
        trend_following_calculate_signal sqrtQ cfg d = mkSignal .HOLD 0 "数据不足或无效，无法计算信号") := by
  refine ⟨?_, ?_, ?_, ?_⟩
  · intro m d
    unfold validate_data
    split_ifs with h1 h2 h3 <;>
      simp_all [List.isEmpty_iff, Nat.lt_iff_add_one_le, Nat.not_le]
  · intro cfg d h
    unfold ma_cross_calculate_signal
    rw [h]
    rfl
  · intro sqrtQ cfg d h
    unfold dca_calculate_signal
    rw [h]
    rfl
  · intro sqrtQ cfg d h
    unfold trend_following_calculate_signal
    rw [h]
    rfl

/-- Witness for C2 at a concrete invalid input (the empty frame). -/
theorem invalid_data_gives_hold_zero_witness :
    validate_data 25 emptyNavData = false ∧
    ma_cross_calculate_signal default_ma_cfg emptyNavData =
      mkSignal .HOLD 0 "数据不足或无效，无法计算信号" ∧
    dca_calculate_signal id default_dca_cfg emptyNavData =
      mkSignal .HOLD 0 "数据不足或无效，无法计算信号" ∧
    trend_following_calculate_signal id default_trend_cfg emptyNavData =
      mkSignal .HOLD 0 "数据不足或无效，无法计算信号" :=
  ⟨by decide,
    invalid_data_gives_hold_zero.2.1 default_ma_cfg emptyNavData (by decide),
    invalid_data_gives_hold_zero.2.2.1 id default_dca_cfg emptyNavData (by decide),
    invalid_data_gives_hold_zero.2.2.2 id default_trend_cfg emptyNavData (by decide)⟩

/-- C6: in the neutral zone (composite strictly between the thresholds) the
DCA decision is a weak BUY below the midpoint and a weak SELL at or above
it, scaled linearly by the distance from the midpoint, and any such
directional signal of strength `< 0.2` is overridden to HOLD with strength
0; hence the neutral zone never emits a directional signal of strength below
0.2. -/
theorem dca_neutral_zone (cfg : DcaCfg) (c s : ℚ) (vals : List ℚ)
    (hlow : cfg.low_percentile < c) (hhigh : c < cfg.high_percentile) :
    (c < (cfg.low_percentile + cfg.high_percentile) / 2 →
      (let st := ((cfg.low_percentile + cfg.high_percentile) / 2 - c) /
          ((cfg.low_percentile + cfg.high_percentile) / 2 - cfg.low_percentile) * (5/10)
       if st < 2/10 then
        (dca_generate_signal cfg c s vals).1 = .HOLD ∧ (dca_generate_signal cfg c s vals).2.1 = 0
       else
        (dca_generate_signal cfg c s vals).1 = .BUY ∧ (dca_generate_signal cfg c s vals).2.1 = st)) ∧
    ((cfg.low_percentile + cfg.high_percentile) / 2 ≤ c →
      (let st := (c - (cfg.low_percentile + cfg.high_percentile) / 2) /
          (cfg.high_percentile - (cfg.low_percentile + cfg.high_percentile) / 2) * (5/10)
       if st < 2/10 then
        (dca_generate_signal cfg c s vals).1 = .HOLD ∧ (dca_generate_signal cfg c s vals).2.1 = 0
       else
        (dca_generate_signal cfg c s vals).1 = .SELL ∧ (dca_generate_signal cfg c s vals).2.1 = st)) ∧
    ((dca_generate_signal cfg c s vals).1 ≠ .HOLD →
      2/10 ≤ (dca_generate_signal cfg c s vals).2.1) := by
  have h1 : ¬ (c ≤ cfg.low_percentile) := not_le.mpr hlow
  have h2 : ¬ (cfg.high_percentile ≤ c) := not_le.mpr hhigh
  unfold dca_generate_signal
  rw [if_neg h1, if_neg h2]
  dsimp only
  refine ⟨?_, ?_, ?_⟩
  · intro hc
    rw [if_pos hc]
    split <;> simp_all
  · intro hc
    rw [if_neg (not_lt.mpr hc)]
    split <;> simp_all
  · split <;> rename_i hcm
    · split <;> rename_i hst
      · simp
      · intro _
        dsimp only
        exact not_lt.mp hst
    · split <;> rename_i hst
      · simp
      · intro _
        dsimp only
        exact not_lt.mp hst

/-- C4 counterexample: the claimed fusion rule fails on the code.
(1) One BUY sub-signal of strength 0.7 against two SELL sub-signals yields
BUY — the BUY branch is checked first, so "at least two agree on SELL"
does not imply a SELL result. (2) A lone BUY of strength 0.55 (≤ 0.6) with
trend-strength 0.4 yields BUY, because the code compares the ×1.2-boosted
sum, not the own strength of the sub-signal, against 0.6. (3) Three BUY
sub-signals of strength 1 with trend-strength 0.5 yield strength 1, not the
un-clamped boosted mean 1.2. -/
theorem synthesize_fusion_counterexample :
    ((([⟨.BUY, 7/10, ""⟩, ⟨.SELL, 1/2, ""⟩, ⟨.SELL, 1/2, ""⟩] : List SubSig).filter
        (fun s => s.type == SignalType.SELL)).length = 2 ∧
      (synthesize_signals ⟨.BUY, 7/10, ""⟩ ⟨.SELL, 1/2, ""⟩ ⟨.SELL, 1/2, ""⟩ 0).1 =
        SignalType.BUY) ∧
    (¬ ((3 : ℚ)/5 < 11/20) ∧
      (synthesize_signals ⟨.BUY, 11/20, ""⟩ ⟨.HOLD, 0, ""⟩ ⟨.HOLD, 0, ""⟩ (2/5)).1 =
        SignalType.BUY) ∧
    (synthesize_signals ⟨.BUY, 1, ""⟩ ⟨.BUY, 1, ""⟩ ⟨.BUY, 1, ""⟩ (1/2)).2.1 = 1 := by
  with_unfolding_all decide

set_option maxHeartbeats 2000000 in
/-- C4 amended: the fused decision checks BUY first — BUY iff at least two
sub-signals are BUY, or exactly one is and the buy strength (×1.2-boosted
when trend-strength > 0.3) exceeds 0.6; SELL under the symmetric rule only
when the BUY branch did not fire; otherwise HOLD with strength 0. The
directional strength is the boosted mean strength of the agreeing
sub-signals, clamped to at most 1. -/
theorem synthesize_fusion_characterization (r m b : SubSig) (t : ℚ) :
    ((synthesize_signals r m b t).1, (synthesize_signals r m b t).2.1) =
      (let sigs := [r, m, b]
       let nb := (sigs.filter (fun s => s.type == SignalType.BUY)).length
       let ns := (sigs.filter (fun s => s.type == SignalType.SELL)).length
       let mean_buy := meanQ ((sigs.filter (fun s => s.type == SignalType.BUY)).map (·.strength))
       let mean_sell := meanQ ((sigs.filter (fun s => s.type == SignalType.SELL)).map (·.strength))
       let boosted_buy := if 3/10 < t then mean_buy * (12/10) else mean_buy
       let boosted_sell := if t < -(3/10) then mean_sell * (12/10) else mean_sell
       if 2 ≤ nb ∨ (nb = 1 ∧ 3/5 < boosted_buy * nb) then (SignalType.BUY, min boosted_buy 1)
       else if 2 ≤ ns ∨ (ns = 1 ∧ 3/5 < boosted_sell * ns) then (SignalType.SELL, min boosted_sell 1)
       else (SignalType.HOLD, 0)) := by
  rcases r with ⟨rt, rs, rr⟩
  rcases m with ⟨mt, ms, mr⟩
  rcases b with ⟨bt, bs, br⟩
  cases rt <;> cases mt <;> cases bt <;>
    simp only [synthesize_signals, meanQ, List.filter_cons, List.filter_nil, beq_iff_eq,
      beq_self_eq_true, reduceCtorEq, if_true, if_false, List.length_cons, List.length_nil,
      List.map_cons, List.map_nil, List.sum_cons, List.sum_nil, List.isEmpty_cons,
      decide_True, decide_False] <;>
    norm_num <;>
    split_ifs <;>
    first
      | rfl
      | (norm_num <;> first | rfl | ring_nf | linarith)
      | linarith

/-- C5 counterexample: on a valid 25-point series with no cross at the last
step (the 5-day average has been above the 20-day average for days), the
strategy still answers BUY through its persistence branch — BUY is not
equivalent to a golden cross. -/
theorem ma_cross_counterexample :
    validate_data default_ma_cfg.min_data_points persistenceData = true ∧
    golden_cross default_ma_cfg persistenceData = false ∧
    death_cross default_ma_cfg persistenceData = false ∧
    (ma_cross_calculate_signal default_ma_cfg persistenceData).signal_type = SignalType.BUY := by
  with_unfolding_all decide

/-- C5 amended: on a valid series, a golden cross yields BUY and a death
cross yields SELL with strength `min(|gap|/2, 0.8)` plus
`(min(recent-volume/average-volume, 2) − 1) × 0.2` (the volume ratio is
capped at 2, and the factor is 1 when no volume data exists) plus
`max(±trend, 0) × 0.3`, the sum clamped to 1; with no cross, a gap beyond
±1% yields a persistence BUY/SELL of strength `min(|gap|/5, 0.6)`, and
otherwise HOLD with strength 0 (final strengths pass through the
constructor clamp to `[0, 1]`). -/
theorem ma_cross_characterization (cfg : MaCfg) (d : NavData)
    (hval : validate_data cfg.min_data_points d = true) :
    (golden_cross cfg d = true →
      (ma_cross_calculate_signal cfg d).signal_type = SignalType.BUY ∧
      (ma_cross_calculate_signal cfg d).strength =
        max 0 (min (min (|ma_diff_pct cfg d| / 2) (4/5) + (volume_factor d - 1) * (1/5) +
          max (calculate_price_trend (navValues d)) 0 * (3/10)) 1)) ∧
    (death_cross cfg d = true →
      (ma_cross_calculate_signal cfg d).signal_type = SignalType.SELL ∧
      (ma_cross_calculate_signal cfg d).strength =
        max 0 (min (min (|ma_diff_pct cfg d| / 2) (4/5) + (volume_factor d - 1) * (1/5) +
          max (-calculate_price_trend (navValues d)) 0 * (3/10)) 1)) ∧
    (golden_cross cfg d = false → death_cross cfg d = false → 1 < |ma_diff_pct cfg d| →
      ((0 < ma_short_last cfg d - ma_long_last cfg d →
        (ma_cross_calculate_signal cfg d).signal_type = SignalType.BUY ∧
        (ma_cross_calculate_signal cfg d).strength =
          max 0 (min (|ma_diff_pct cfg d| / 5) (3/5))) ∧
       (ma_short_last cfg d - ma_long_last cfg d ≤ 0 →
        (ma_cross_calculate_signal cfg d).signal_type = SignalType.SELL ∧
        (ma_cross_calculate_signal cfg d).strength =
          max 0 (min (|ma_diff_pct cfg d| / 5) (3/5))))) ∧
    (golden_cross cfg d = false → death_cross cfg d = false → |ma_diff_pct cfg d| ≤ 1 →
      (ma_cross_calculate_signal cfg d).signal_type = SignalType.HOLD ∧
      (ma_cross_calculate_signal cfg d).strength = 0) := by
  have hv : ¬ ((!validate_data cfg.min_data_points d) = true) := by
    rw [hval]
    simp
  have hmin : ∀ S : ℚ, min (1 : ℚ) (min S 1) = min S 1 := fun S => min_eq_right (min_le_right S 1)
  have hmin2 : ∀ S : ℚ, min (1 : ℚ) (min S (3/5)) = min S (3/5) := fun S =>
    min_eq_right (le_trans (min_le_right S (3/5)) (by norm_num))
  unfold ma_cross_calculate_signal
  rw [if_neg hv]
  refine ⟨?_, ?_, ?_, ?_⟩
  · intro hg
    simp only [hg, if_true, mkSignal_signal_type, mkSignal_strength]
    exact ⟨trivial, by rw [hmin]⟩
  · intro hd
    have hg : golden_cross cfg d = false := by
      cases hcase : golden_cross cfg d with
      | false => rfl
      | true =>
        exfalso
        unfold golden_cross at hcase
        unfold death_cross at hd
        simp only [Bool.and_eq_true, decide_eq_true_eq] at hcase hd
        exact absurd hd.2 (not_lt.mpr (le_of_lt hcase.2))
    simp only [hg, hd, Bool.false_eq_true, if_false, if_true, mkSignal_signal_type,
      mkSignal_strength]
    exact ⟨trivial, by rw [hmin]⟩
  · intro hg hd hgap
    refine ⟨?_, ?_⟩
    · intro hpos
      simp only [hg, hd, Bool.false_eq_true, if_false, if_pos hgap, if_pos hpos,
        mkSignal_signal_type, mkSignal_strength]
      exact ⟨trivial, by rw [hmin2]⟩
    · intro hnonpos
      simp only [hg, hd, Bool.false_eq_true, if_false, if_pos hgap,
        if_neg (not_lt.mpr hnonpos), mkSignal_signal_type, mkSignal_strength]
      exact ⟨trivial, by rw [hmin2]⟩
  · intro hg hd hgap
    simp only [hg, hd, Bool.false_eq_true, if_false, if_neg (not_lt.mpr hgap),
      mkSignal_signal_type, mkSignal_strength]
    norm_num

/-- Witness for the amended C5 characterization: the golden-cross series, with
the cross condition and the strength formula evaluated concretely (base
strength capped at 0.8, no volume bonus, trend bonus 0.3, total clamped to
1). -/
theorem ma_cross_characterization_witness :
    validate_data default_ma_cfg.min_data_points goldenCrossData = true ∧
    golden_cross default_ma_cfg goldenCrossData = true ∧
    (ma_cross_calculate_signal default_ma_cfg goldenCrossData).signal_type = SignalType.BUY ∧
    (ma_cross_calculate_signal default_ma_cfg goldenCrossData).strength =
      max 0 (min (min (|ma_diff_pct default_ma_cfg goldenCrossData| / 2) (4/5) +
        (volume_factor goldenCrossData - 1) * (1/5) +
        max (calculate_price_trend (navValues goldenCrossData)) 0 * (3/10)) 1) :=
  ⟨by decide, by with_unfolding_all decide,
    (ma_cross_characterization default_ma_cfg goldenCrossData (by decide)).1
      (by with_unfolding_all decide) |>.1,
    (ma_cross_characterization default_ma_cfg goldenCrossData (by decide)).1
      (by with_unfolding_all decide) |>.2⟩

/-- C8 counterexample: on an all-equal window both the average gain and the
average loss are zero, `rs = 0/0` is NaN, and the RSI is NaN — not the
claimed extreme 100; the consuming strategy substitutes the neutral 50
(line 74 of `trend_following_strategy.py`), so it receives 50, not 100. -/
theorem rsi_flat_counterexample :
    last_loss [1, 1, 1] 2 = 0 ∧
    calculate_rsi_last [1, 1, 1] 2 = RsiVal.nan ∧
    current_rsi_of (calculate_rsi_last [1, 1, 1] 2) = 50 ∧
    current_rsi_of (calculate_rsi_last [1, 1, 1] 2) ≠ 100 := by
  with_unfolding_all decide

/-- C8 amended: with enough data and a zero average loss, the RSI is the
extreme 100 whenever the average gain is positive (strictly increasing
somewhere in the window); when the average gain is also zero the RSI is NaN
and the consuming strategy reads it as the neutral 50 — in neither case does
a NaN flow into the signal computation of the strategy. -/
theorem rsi_zero_loss_behaviour (xs : List ℚ) (period : ℕ)
    (h0 : 0 < period) (hlen : period ≤ (diffsQ xs).length)
    (hloss : last_loss xs period = 0) :
    (calculate_rsi_last xs period =
      if 0 < last_gain xs period then RsiVal.val 100 else RsiVal.nan) ∧
    (current_rsi_of (calculate_rsi_last xs period) =
      if 0 < last_gain xs period then 100 else 50) := by
  have hcond : ¬ (period = 0 ∨ (diffsQ xs).length < period) := by
    rintro (h | h)
    · omega
    · omega
  unfold calculate_rsi_last
  rw [if_neg hcond]
  dsimp only
  rw [hloss, if_neg (lt_irrefl 0)]
  constructor
  · rfl
  · split <;> rfl

/-- Witness for C8: `[1, 1, 2]` with period 2 — the last two differences are
`0, 1`, so the average loss is 0 and the average gain is `1/2 > 0`; the RSI
is the extreme 100 and the consuming strategy reads 100. -/
theorem rsi_zero_loss_behaviour_witness :
    0 < 2 ∧ 2 ≤ (diffsQ [1, 1, 2]).length ∧ last_loss [1, 1, 2] 2 = 0 ∧
    ((calculate_rsi_last [1, 1, 2] 2 =
        if 0 < last_gain [1, 1, 2] 2 then RsiVal.val 100 else RsiVal.nan) ∧
      (current_rsi_of (calculate_rsi_last [1, 1, 2] 2) =
        if 0 < last_gain [1, 1, 2] 2 then 100 else 50)) :=
  ⟨by decide, by with_unfolding_all decide, by with_unfolding_all decide,
    rsi_zero_loss_behaviour [1, 1, 2] 2 (by decide) (by with_unfolding_all decide)
      (by with_unfolding_all decide)⟩

/-- C9 counterexample: on `[1, 2]` (any lookback ≥ 2) the percentile rank
computed by the code at the second point is 100, while the claimed
strictly-less-fraction definition gives `1/2 × 100 = 50` — the code computes
`(average_rank − 1)/(window_size − 1) × 100`, not the strict-less fraction
of the window. -/
theorem percentile_rank_counterexample :
    calculate_percentile_rank [1, 2] 3 = [50, 100] ∧
    percentile_rank_strict_spec [1, 2] 3 = [50, 50] ∧
    calculate_percentile_rank [1, 2] 3 ≠ percentile_rank_strict_spec [1, 2] 3 := by
  with_unfolding_all decide

/-- C9 amended: the output has the same length as the input; each position
with a trailing window of fewer than 2 points yields exactly 50, and every
other position yields `(#strictly-below + (#ties − 1)/2) / (window − 1) ×
100` where the counts are taken over the trailing `lookback` window
(pandas average-rank semantics), not the strict-less fraction of the window. -/
theorem percentile_rank_pointwise (l : List ℚ) (lookback : ℕ) :
    (calculate_percentile_rank l lookback).length = l.length ∧
    (∀ i, i < l.length →
      (calculate_percentile_rank l lookback).getD i 0 =
        (let w := windowAt lookback i l
         if w.length < 2 then 50
         else (((w.countP (fun x => decide (x < w.getLastD 0))) : ℚ) +
            (((w.countP (fun x => decide (x = w.getLastD 0))) : ℚ) - 1) / 2) /
          ((w.length : ℚ) - 1) * 100)) := by
  constructor
  · simp [calculate_percentile_rank]
  · intro i hi
    unfold calculate_percentile_rank
    rw [List.getD_eq_getElem?_getD, List.getElem?_map, List.getElem?_range hi]
    simp only [Option.map_some', Option.getD_some]
    split
    · rfl
    · unfold rankAvgLast
      ring

/-- Witness for the amended C9 characterization at `[1, 2]`, lookback 3,
position 1: one strictly-below value, one tie, so `(1 + 0/2)/(2-1)×100 =
100`. -/
theorem percentile_rank_pointwise_witness :
    (1 : ℕ) < ([1, 2] : List ℚ).length ∧
    (calculate_percentile_rank [1, 2] 3).getD 1 0 =
      (let w := windowAt 3 1 [1, 2]
       if w.length < 2 then 50
       else (((w.countP (fun x => decide (x < w.getLastD 0))) : ℚ) +
          (((w.countP (fun x => decide (x = w.getLastD 0))) : ℚ) - 1) / 2) /
        ((w.length : ℚ) - 1) * 100) :=
  ⟨by decide, (percentile_rank_pointwise [1, 2] 3).2 1 (by decide)⟩

/-- A lookup over a mapping of non-negative weights is non-negative. -/
theorem lookupW_nonneg (w : List (String × ℚ)) (hw : ∀ p ∈ w, 0 ≤ p.2) (n : String) :
    0 ≤ lookupW w n := by
  induction w with
  | nil => exact le_refl 0
  | cons a t ih =>
    unfold lookupW
    split
    · exact hw a (List.mem_cons_self a t)
    · exact ih (fun p hp => hw p (List.mem_cons_of_mem a hp))

/-- A name absent from the weight mapping looks up to the default 0. -/
theorem lookupW_eq_zero (w : List (String × ℚ)) (n : String) (h : ∀ p ∈ w, p.1 ≠ n) :
    lookupW w n = 0 := by
  induction w with
  | nil => rfl
  | cons a t ih =>
    unfold lookupW
    rw [if_neg (h a (List.mem_cons_self a t))]
    exact ih (fun p hp => h p (List.mem_cons_of_mem a hp))

/-- A batch in which every strategy returns normally loses nothing. -/
theorem calculate_all_signals_ok (sigs : List (String × Signal)) :
    calculate_all_signals (sigs.map (fun p => (p.1, Except.ok p.2))) = sigs := by
  induction sigs with
  | nil => rfl
  | cons p rest ih => simp [calculate_all_signals, ih]

/-- The consensus accumulation loop computes exactly the spec-side buckets
(on top of whatever the accumulator held), provided the weight mapping is
non-negative — skipping the non-positive weights then coincides with
summing weight-0 contributions. -/
theorem consensus_fold_buckets (w : List (String × ℚ)) (hw : ∀ p ∈ w, 0 ≤ p.2) :
    ∀ (sigs : List (String × Signal)) (acc : ConsAcc),
      (consensus_fold w sigs acc).buy = acc.buy + bucket_buy w sigs ∧
      (consensus_fold w sigs acc).sell = acc.sell + bucket_sell w sigs ∧
      (consensus_fold w sigs acc).hold = acc.hold + bucket_hold w sigs ∧
      (consensus_fold w sigs acc).total = acc.total + bucket_total w sigs := by
  intro sigs
  induction sigs with
  | nil =>
    intro acc
    simp [consensus_fold, bucket_buy, bucket_sell, bucket_hold, bucket_total]
  | cons p rest ih =>
    intro acc
    have hstep : consensus_fold w (p :: rest) acc =
        consensus_fold w rest (consensus_step w acc p) := rfl
    obtain ⟨ihb, ihs, ihh, iht⟩ := ih (consensus_step w acc p)
    rw [hstep, ihb, ihs, ihh, iht]
    unfold consensus_step bucket_buy bucket_sell bucket_hold bucket_total
    by_cases hz : lookupW w p.1 ≤ 0
    · have hz0 : lookupW w p.1 = 0 := le_antisymm hz (lookupW_nonneg w hw p.1)
      rw [if_pos hz]
      simp [hz0]
    · rw [if_neg hz]
      cases htype : p.2.signal_type <;>
        simp [htype, List.map_cons, List.sum_cons, add_assoc]

/-- C1: with every strategy returning a signal, a non-empty batch and a
non-negative weight mapping of positive total, the consensus signal type is
decided by the normalised buckets with the 0.3 floor (BUY iff the
normalised buy bucket beats the sell bucket and exceeds 0.3, symmetrically
for SELL, otherwise HOLD), the strength being the winning normalised bucket
(0 for HOLD); and on the three-strategy example of the spec (BUY/0.5, SELL/0.1,
HOLD, equal weights) the normalised buy bucket is 1/6 ≈ 0.167, fails the
0.3 floor, and the consensus is HOLD with strength 0. -/
theorem consensus_weighted_decision :
    (∀ (sigs : List (String × Signal)) (w : List (String × ℚ)),
      sigs ≠ [] → w ≠ [] → (∀ p ∈ w, 0 ≤ p.2) → 0 < bucket_total w sigs →
      (get_consensus_signal (sigs.map (fun p => (p.1, Except.ok p.2)))
          (some w)).signal_type =
        (if bucket_sell w sigs / bucket_total w sigs < bucket_buy w sigs / bucket_total w sigs ∧
            3/10 < bucket_buy w sigs / bucket_total w sigs then SignalType.BUY
         else if bucket_buy w sigs / bucket_total w sigs <
              bucket_sell w sigs / bucket_total w sigs ∧
            3/10 < bucket_sell w sigs / bucket_total w sigs then SignalType.SELL
         else SignalType.HOLD) ∧
      (get_consensus_signal (sigs.map (fun p => (p.1, Except.ok p.2)))
          (some w)).strength =
        max 0 (min 1
          (if bucket_sell w sigs / bucket_total w sigs < bucket_buy w sigs / bucket_total w sigs ∧
              3/10 < bucket_buy w sigs / bucket_total w sigs then
            bucket_buy w sigs / bucket_total w sigs
           else if bucket_buy w sigs / bucket_total w sigs <
                bucket_sell w sigs / bucket_total w sigs ∧
              3/10 < bucket_sell w sigs / bucket_total w sigs then
            bucket_sell w sigs / bucket_total w sigs
           else 0))) ∧
    (bucket_buy exampleWeights exampleSignals / bucket_total exampleWeights exampleSignals =
        1/6 ∧
      ¬ ((3 : ℚ)/10 < 1/6) ∧
      (get_consensus_signal exampleOutcomes none).signal_type = SignalType.HOLD ∧
      (get_consensus_signal exampleOutcomes none).strength = 0) := by
  constructor
  · intro sigs w h1 h2 hw htot
    rcases w with _ | ⟨a, t⟩
    · exact absurd rfl h2
    unfold get_consensus_signal
    rw [calculate_all_signals_ok]
    have hne : ¬ (sigs.isEmpty = true) := fun h => h1 (List.isEmpty_iff.mp h)
    rw [if_neg hne]
    obtain ⟨hb, hs, hh, ht⟩ := consensus_fold_buckets (a :: t) hw sigs ⟨0, 0, 0, 0, []⟩
    have htne : ¬ ((consensus_fold (a :: t) sigs ⟨0, 0, 0, 0, []⟩).total = 0) := by
      rw [ht, zero_add]
      exact ne_of_gt htot
    rw [if_neg htne]
    simp only [hb, hs, ht, zero_add, mkSignal_signal_type, mkSignal_strength]
    split_ifs <;> simp
  · refine ⟨by with_unfolding_all decide, by norm_num, ?_, ?_⟩ <;>
      with_unfolding_all decide

/-- Witness for C1 at the example batch of the spec, with the weights supplied
explicitly: the hypotheses hold and the decision follows the bucket rule. -/
theorem consensus_weighted_decision_witness :
    exampleSignals ≠ [] ∧ exampleWeights ≠ [] ∧ (∀ p ∈ exampleWeights, 0 ≤ p.2) ∧
    0 < bucket_total exampleWeights exampleSignals ∧
    ((get_consensus_signal (exampleSignals.map (fun p => (p.1, Except.ok p.2)))
        (some exampleWeights)).signal_type =
      (if bucket_sell exampleWeights exampleSignals /
            bucket_total exampleWeights exampleSignals <
          bucket_buy exampleWeights exampleSignals /
            bucket_total exampleWeights exampleSignals ∧
          3/10 < bucket_buy exampleWeights exampleSignals /
            bucket_total exampleWeights exampleSignals then SignalType.BUY
       else if bucket_buy exampleWeights exampleSignals /
            bucket_total exampleWeights exampleSignals <
          bucket_sell exampleWeights exampleSignals /
            bucket_total exampleWeights exampleSignals ∧
          3/10 < bucket_sell exampleWeights exampleSignals /
            bucket_total exampleWeights exampleSignals then SignalType.SELL
       else SignalType.HOLD)) :=
  ⟨by decide, by decide, by with_unfolding_all decide, by with_unfolding_all decide,
    ((consensus_weighted_decision.1 exampleSignals exampleWeights (by decide) (by decide)
      (by with_unfolding_all decide) (by with_unfolding_all decide)).1)⟩

/-- C10: a strategy whose name is absent from a supplied weight mapping
looks up weight 0 and is skipped by the accumulation loop — it contributes
to no bucket and not to the total weight; when no strategy produced a
result the consensus is the early HOLD/0 "no available signals" answer; and
when the accumulated total weight is zero (every effective weight ≤ 0) the
consensus is the early HOLD/0 "all weights zero" answer — no division by
zero is reached. -/
theorem consensus_zero_weight_edge_cases :
    (∀ (w : List (String × ℚ)) (n : String) (sg : Signal)
        (rest : List (String × Signal)) (acc : ConsAcc),
      (∀ p ∈ w, p.1 ≠ n) →
      lookupW w n = 0 ∧
      consensus_fold w ((n, sg) :: rest) acc = consensus_fold w rest acc) ∧
    (∀ (outcomes : List (String × StrategyOutcome)) (wopt : Option (List (String × ℚ))),
      calculate_all_signals outcomes = [] →
      get_consensus_signal outcomes wopt = mkSignal .HOLD 0 "无可用策略信号") ∧
    (∀ (outcomes : List (String × StrategyOutcome)) (a : String × ℚ)
        (t : List (String × ℚ)),
      calculate_all_signals outcomes ≠ [] →
      (consensus_fold (a :: t) (calculate_all_signals outcomes) ⟨0, 0, 0, 0, []⟩).total = 0 →
      get_consensus_signal outcomes (some (a :: t)) = mkSignal .HOLD 0 "所有策略权重为零") := by
  refine ⟨?_, ?_, ?_⟩
  · intro w n sg rest acc h
    have hz : lookupW w n = 0 := lookupW_eq_zero w n h
    refine ⟨hz, ?_⟩
    have hstep : consensus_fold w ((n, sg) :: rest) acc =
        consensus_fold w rest (consensus_step w acc (n, sg)) := rfl
    rw [hstep]
    congr 1
    unfold consensus_step
    rw [if_pos (by rw [hz])]
  · intro outcomes wopt h
    rcases wopt with _ | w
    · unfold get_consensus_signal
      rw [h]
      rfl
    · rcases w with _ | ⟨a, t⟩ <;>
        · unfold get_consensus_signal
          rw [h]
          rfl
  · intro outcomes a t h htot
    unfold get_consensus_signal
    have hne : ¬ ((calculate_all_signals outcomes).isEmpty = true) := fun hh =>
      h (List.isEmpty_iff.mp hh)
    rw [if_neg hne, if_pos htot]

/-- Witness for C10: a one-strategy batch whose name is missing from the
supplied weight mapping — it is skipped; a batch whose only strategy raised
— the "no signals" HOLD; the same skipped-strategy batch under the foreign
weight mapping — total weight 0 and the "all weights zero" HOLD. -/
theorem consensus_zero_weight_edge_cases_witness :
    (lookupW [("a", 1)] "b" = 0 ∧
      consensus_fold [("a", 1)] [("b", mkSignal .HOLD 0 "")] ⟨0, 0, 0, 0, []⟩ =
        consensus_fold [("a", 1)] [] ⟨0, 0, 0, 0, []⟩) ∧
    get_consensus_signal [("b", Except.error "x")] none =
      mkSignal .HOLD 0 "无可用策略信号" ∧
    get_consensus_signal [("b", Except.ok (mkSignal .HOLD 0 ""))] (some [("a", 1)]) =
      mkSignal .HOLD 0 "所有策略权重为零" :=
  ⟨consensus_zero_weight_edge_cases.1 [("a", 1)] "b" (mkSignal .HOLD 0 "") [] ⟨0, 0, 0, 0, []⟩
      (by decide),
    consensus_zero_weight_edge_cases.2.1 [("b", Except.error "x")] none rfl,
    consensus_zero_weight_edge_cases.2.2 [("b", Except.ok (mkSignal .HOLD 0 ""))] ("a", 1) []
      (by decide) (by with_unfolding_all decide)⟩

/-- C7: `calculate_all_signals` isolates failures — a strategy that raises
contributes no entry and changes nothing else (removing the failing entry
leaves the batch of the others intact), and every strategy that returns a
signal keeps its entry in the result; the batch is never aborted. -/
theorem batch_isolation :
    (∀ (pre post : List (String × StrategyOutcome)) (n e : String),
      calculate_all_signals (pre ++ (n, Except.error e) :: post) =
        calculate_all_signals (pre ++ post)) ∧
    (∀ (outcomes : List (String × StrategyOutcome)) (n : String) (s : Signal),
      (n, Except.ok s) ∈ outcomes → (n, s) ∈ calculate_all_signals outcomes) := by
  constructor
  · intro pre post n e
    induction pre with
    | nil => rfl
    | cons p rest ih =>
      rcases p with ⟨m, out⟩
      cases out with
      | ok s => simpa [calculate_all_signals] using ih
      | error msg => simpa [calculate_all_signals] using ih
  · intro outcomes n s hmem
    induction outcomes with
    | nil => cases hmem
    | cons p rest ih =>
      rcases List.mem_cons.mp hmem with heq | htail
      · subst heq
        simp [calculate_all_signals]
      · rcases p with ⟨m, out⟩
        cases out with
        | ok s2 => exact List.mem_cons_of_mem _ (ih htail)
        | error msg => exact ih htail

/-- Witness for C7: a three-strategy batch whose middle strategy raises —
the other two results survive, and dropping the failing entry gives the
same batch result. -/
theorem batch_isolation_witness :
    calculate_all_signals
        ([("s1", Except.ok (mkSignal .BUY 1 ""))] ++
          ("s2", (Except.error "boom" : StrategyOutcome)) ::
            [("s3", Except.ok (mkSignal .HOLD 0 ""))]) =
      calculate_all_signals
        ([("s1", Except.ok (mkSignal .BUY 1 ""))] ++ [("s3", Except.ok (mkSignal .HOLD 0 ""))]) ∧
    ("s3", mkSignal .HOLD 0 "") ∈
      calculate_all_signals
        [("s1", Except.ok (mkSignal .BUY 1 "")), ("s2", Except.error "boom"),
          ("s3", Except.ok (mkSignal .HOLD 0 ""))] :=
  ⟨batch_isolation.1 [("s1", Except.ok (mkSignal .BUY 1 ""))]
      [("s3", Except.ok (mkSignal .HOLD 0 ""))] "s2" "boom",
    batch_isolation.2 _ "s3" (mkSignal .HOLD 0 "")
      (by simp)⟩

/-- Witness for C6: default thresholds, composite 30 → midpoint 50, scaled
strength 0.4 ≥ 0.2, so a weak BUY of strength 0.4. -/
theorem dca_neutral_zone_witness :
    default_dca_cfg.low_percentile < 30 ∧ (30 : ℚ) < default_dca_cfg.high_percentile ∧
    ((30 : ℚ) < (default_dca_cfg.low_percentile + default_dca_cfg.high_percentile) / 2 →
      (let st := ((default_dca_cfg.low_percentile + default_dca_cfg.high_percentile) / 2 - 30) /
          ((default_dca_cfg.low_percentile + default_dca_cfg.high_percentile) / 2 -
            default_dca_cfg.low_percentile) * (5/10)
       if st < 2/10 then
        (dca_generate_signal default_dca_cfg 30 0 []).1 = .HOLD ∧
          (dca_generate_signal default_dca_cfg 30 0 []).2.1 = 0
       else
        (dca_generate_signal default_dca_cfg 30 0 []).1 = .BUY ∧
          (dca_generate_signal default_dca_cfg 30 0 []).2.1 = st)) :=
  ⟨by decide, by decide,
    (dca_neutral_zone default_dca_cfg 30 0 [] (by decide) (by decide)).1⟩
